import Mathlib

/-!
Shallow embedding of `robot_controller.py` (two-motor differential robot:
BTS7960 motor channels, quadrature encoders, servo-swept distance sensor,
autonomous obstacle-avoidance loop, command router), together with theorems
settling the spec claims about it.

PWM duty-cycle values and speeds are modelled as rationals (the Python code
only adds, subtracts, clamps and compares these floats; every constant in
the source is exactly representable and no claim depends on rounding).
Servo angles are integers, as in the source (`int(servo.angle or 0)`).
-/

namespace Robot

/-- Output-sink state of the two BTS7960 motor channels: for each channel a
forward PWM (`RPWM`), reverse PWM (`LPWM`) and two enable lines (`REN`, `LEN`).
Mirrors the module-level `PWMOutputDevice` / `OutputDevice` objects of
`robot_controller.py` (gpiozero devices start at 0 / off). -/
structure MotorIO where
  rpwm_A : ℚ
  lpwm_A : ℚ
  ren_A : Bool
  len_A : Bool
  rpwm_B : ℚ
  lpwm_B : ℚ
  ren_B : Bool
  len_B : Bool
  deriving Repr, DecidableEq

/-- Initial output state: all PWM at 0, all enables de-asserted. -/
def initIO : MotorIO :=
  { rpwm_A := 0, lpwm_A := 0, ren_A := false, len_A := false
    rpwm_B := 0, lpwm_B := 0, ren_B := false, len_B := false }

/-- The clamp `max(min(speed, 1.0), -1.0)` performed by `set_motor_A/B`. -/
def clampSpeed (speed : ℚ) : ℚ := max (min speed 1) (-1)

/-- Embedding of `set_motor_A` (robot_controller.py lines 63-70): clamp the
speed, then drive RPWM_A forward / LPWM_A reverse / both zero by sign. -/
def set_motor_A (speed : ℚ) (io : MotorIO) : MotorIO :=
  if clampSpeed speed > 0 then { io with lpwm_A := 0, rpwm_A := clampSpeed speed }
  else if clampSpeed speed < 0 then { io with rpwm_A := 0, lpwm_A := |clampSpeed speed| }
  else { io with rpwm_A := 0, lpwm_A := 0 }

/-- Embedding of `set_motor_B` (robot_controller.py lines 72-79). -/
def set_motor_B (speed : ℚ) (io : MotorIO) : MotorIO :=
  if clampSpeed speed > 0 then { io with lpwm_B := 0, rpwm_B := clampSpeed speed }
  else if clampSpeed speed < 0 then { io with rpwm_B := 0, lpwm_B := |clampSpeed speed| }
  else { io with rpwm_B := 0, lpwm_B := 0 }

/-- Embedding of `enable_motors`: assert all four enable lines. -/
def enable_motors (io : MotorIO) : MotorIO :=
  { io with ren_A := true, len_A := true, ren_B := true, len_B := true }

/-- Embedding of `disable_motors` (lines 85-89) as a state transformer:
zero channel A PWM, de-assert channel A enables, zero channel B PWM,
de-assert channel B enables. -/
def disable_motors (io : MotorIO) : MotorIO :=
  { io with rpwm_A := 0, lpwm_A := 0, ren_A := false, len_A := false
            rpwm_B := 0, lpwm_B := 0, ren_B := false, len_B := false }

/-- Embedding of `move_forward(speed)`: `set_motor_A(speed); set_motor_B(speed)`. -/
def move_forward (speed : ℚ) (io : MotorIO) : MotorIO :=
  set_motor_B speed (set_motor_A speed io)

/-- Embedding of `move_backward(speed)`. -/
def move_backward (speed : ℚ) (io : MotorIO) : MotorIO :=
  set_motor_B (-speed) (set_motor_A (-speed) io)

/-- Embedding of `move_left(speed)` (in-place pivot). -/
def move_left (speed : ℚ) (io : MotorIO) : MotorIO :=
  set_motor_B speed (set_motor_A (-speed) io)

/-- Embedding of `move_right(speed)`. -/
def move_right (speed : ℚ) (io : MotorIO) : MotorIO :=
  set_motor_B (-speed) (set_motor_A speed io)

/-- Embedding of `stop_motors`: `set_motor_A(0); set_motor_B(0)`. -/
def stop_motors (io : MotorIO) : MotorIO :=
  set_motor_B 0 (set_motor_A 0 io)

/-- Embedding of `increase_speed` (lines 98-101): add 0.1 to the current
speed, clamped above at 1.0; the new value is both stored and returned. -/
def increase_speed (s : ℚ) : ℚ := min (s + 1/10) 1

/-- Embedding of `decrease_speed` (lines 103-106). -/
def decrease_speed (s : ℚ) : ℚ := max (s - 1/10) 0

/-- The module-level `obstacle_threshold = 20` (cm), never mutated. -/
def obstacle_threshold : ℚ := 20

/-- The module-level initial `current_speed = 0.3`. -/
def init_current_speed : ℚ := 3/10

/-- State of one encoder channel: the signed tick accumulator and the last
sampled direction (module globals `tick_count_X` / `direction_X`). -/
structure EncState where
  tick_count : ℤ
  direction : ℤ
  deriving Repr, DecidableEq

/-- Initial encoder state: `tick_count_A = tick_count_B = 0`,
`direction_A = direction_B = 1` (line 36-37). -/
def initEnc : EncState := { tick_count := 0, direction := 1 }

/-- Per-pulse direction `1 if ENC_X_B.value == 0 else -1`, where `phaseHigh`
is the sampled level of the quadrature-phase input at the pulse. -/
def encoder_dir (phaseHigh : Bool) : ℤ := if phaseHigh = false then 1 else -1

/-- Embedding of `on_encoder_tick_A` / `on_encoder_tick_B` (lines 47-57):
sample the phase level, store the resulting direction, and add it to the
tick count under the channel's lock. -/
def on_encoder_tick (phaseHigh : Bool) (e : EncState) : EncState :=
  let d := encoder_dir phaseHigh
  { tick_count := e.tick_count + d, direction := d }

/-- Run a finite sequence of pulse events, each annotated with the level of
the phase input at that pulse. -/
def run_pulses (ps : List Bool) (e : EncState) : EncState :=
  ps.foldl (fun e p => on_encoder_tick p e) e

/-- The eight output sinks of the actuator driver. -/
inductive Pin
  | rpwmA | lpwmA | renA | lenA | rpwmB | lpwmB | renB | lenB
  deriving Repr, DecidableEq

/-- One write to an output sink as performed by `disable_motors`: zeroing a
PWM output or de-asserting an enable line. -/
inductive SinkWrite
  | zeroPWM (p : Pin)
  | deassertEN (p : Pin)
  deriving Repr, DecidableEq

/-- Whether a write zeroes a PWM output. -/
def SinkWrite.isZeroPWM : SinkWrite → Bool
  | .zeroPWM _ => true
  | .deassertEN _ => false

/-- Whether a write de-asserts an enable line. -/
def SinkWrite.isDeassert : SinkWrite → Bool
  | .zeroPWM _ => false
  | .deassertEN _ => true

/-- The pin a write targets. -/
def SinkWrite.pin : SinkWrite → Pin
  | .zeroPWM p => p
  | .deassertEN p => p

/-- Whether a pin belongs to motor channel A. -/
def Pin.onChannelA : Pin → Bool
  | .rpwmA | .lpwmA | .renA | .lenA => true
  | .rpwmB | .lpwmB | .renB | .lenB => false

/-- The sequence of output-sink writes performed by one call to
`disable_motors` (lines 85-89), in program order. Python's chained
assignment `RPWM_A.value = LPWM_A.value = 0` assigns its targets left to
right: `RPWM_A` first, then `LPWM_A`; likewise for channel B. -/
def disable_writes : List SinkWrite :=
  [.zeroPWM .rpwmA, .zeroPWM .lpwmA, .deassertEN .renA, .deassertEN .lenA,
   .zeroPWM .rpwmB, .zeroPWM .lpwmB, .deassertEN .renB, .deassertEN .lenB]

/-- Clamp an angle to the servo's [-85, 85] range, as in
`max(-85, min(85, target))` and the per-step clamp of `sweep_servo`. -/
def clampAngle (a : ℤ) : ℤ := max (-85) (min 85 a)

/-- Length of Python `range(start, stop, step)` for a nonzero step:
`ceil((stop-start)/step)` clamped below at 0. -/
def pyRangeLen (start stop step : ℤ) : ℕ :=
  if 0 < step then ((stop - start).toNat + (step.toNat - 1)) / step.toNat
  else if step < 0 then ((start - stop).toNat + ((-step).toNat - 1)) / (-step).toNat
  else 0

/-- Python `range(start, stop, step)` as a list of integers. -/
def pyRange (start stop step : ℤ) : List ℤ :=
  (List.range (pyRangeLen start stop step)).map (fun (k : ℕ) => start + step * (k : ℤ))

/-- The list of servo angles commanded by `sweep_servo(target, step)`
(lines 109-115) starting from last commanded angle `cur`: the target is
clamped to [-85, 85], the iteration space is `range(cur, target+1, step)`
when `target > cur` and `range(cur, target-1, -step)` otherwise, and each
commanded angle is clamped per step. -/
def sweep_servo_angles (cur target step : ℤ) : List ℤ :=
  (if clampAngle target > cur then pyRange cur (clampAngle target + 1) step
   else pyRange cur (clampAngle target - 1) (-step)).map clampAngle

/-- The servo's last commanded angle after `sweep_servo` returns: the final
element of the commanded list, or the starting angle if nothing was
commanded. -/
def sweep_final_angle (cur target step : ℤ) : ℤ :=
  ((sweep_servo_angles cur target step).getLast?).getD cur

/-- One externally visible action of the autonomous loop, recorded in
program order: a servo sweep to a target angle, a distance-sensor read
(front / right / left sample with its value), a drive command, or a sleep
of a given duration in seconds. -/
inductive AutoAction
  | sweep (target : ℤ)
  | readFront (d : ℚ)
  | readRight (d : ℚ)
  | readLeft (d : ℚ)
  | stopCmd
  | backwardCmd (speed : ℚ)
  | forwardCmd (speed : ℚ)
  | leftCmd (speed : ℚ)
  | rightCmd (speed : ℚ)
  | sleepSec (t : ℚ)
  deriving Repr, DecidableEq

/-- The sequence of actions performed by one fault-free iteration of the
`auto_mode_function` loop body (lines 121-138), when the front, right and
left distance samples are the given values and the drive speed is
`current_speed`. -/
def auto_tick_trace (front right left speed : ℚ) : List AutoAction :=
  [.sweep 0, .readFront front] ++
    (if front < obstacle_threshold then
      [.stopCmd, .sweep 85, .readRight right, .sweep (-85), .readLeft left,
       .sweep 0, .backwardCmd speed, .sleepSec (1/2), .stopCmd,
       (if right > left then .rightCmd speed else .leftCmd speed),
       .sleepSec (3/5), .stopCmd]
     else [.forwardCmd speed]) ++
    [.sleepSec (1/10)]

/-- The evasion sequence exactly as claim C2 words it: stop, scan right,
scan left, recenter, reverse for 0.5 s, stop, then turn left when the left
reading is strictly larger than the right reading and turn right otherwise
(so a tie turns right), for 0.6 s, then stop. -/
def claimed_evasion_trace (right left speed : ℚ) : List AutoAction :=
  [.stopCmd, .sweep 85, .readRight right, .sweep (-85), .readLeft left,
   .sweep 0, .backwardCmd speed, .sleepSec (1/2), .stopCmd,
   (if left > right then .leftCmd speed else .rightCmd speed),
   .sleepSec (3/5), .stopCmd]

/-- The evasion sequence as amended: identical to the claimed one except
that a tie between the side readings turns left — the code turns right only
when the right reading is strictly larger. -/
def amended_evasion_trace (right left speed : ℚ) : List AutoAction :=
  [.stopCmd, .sweep 85, .readRight right, .sweep (-85), .readLeft left,
   .sweep 0, .backwardCmd speed, .sleepSec (1/2), .stopCmd,
   (if left ≥ right then .leftCmd speed else .rightCmd speed),
   .sleepSec (3/5), .stopCmd]

/-- Environment of one autonomous-loop tick: the three distance samples the
sensor would deliver, and fault flags saying which sensor read or drive
command (identified by its site in the loop body) raises an exception on
this tick. -/
structure TickEnv where
  frontVal : ℚ
  rightVal : ℚ
  leftVal : ℚ
  frontFail : Bool
  rightFail : Bool
  leftFail : Bool
  stopFail1 : Bool
  backFail : Bool
  stopFail2 : Bool
  turnFail : Bool
  stopFail3 : Bool
  forwardFail : Bool
  deriving Repr, DecidableEq

/-- A fault-free tick environment with front sample `front` and both side
samples 0. -/
def cleanEnv (front : ℚ) : TickEnv :=
  { frontVal := front, rightVal := 0, leftVal := 0,
    frontFail := false, rightFail := false, leftFail := false,
    stopFail1 := false, backFail := false, stopFail2 := false,
    turnFail := false, stopFail3 := false, forwardFail := false }

/-- The `try` body of one `auto_mode_function` loop iteration (lines
122-138) as a transformer of motor-output state: `.ok` with the final state
when no action raises, `.error` with the state reached so far when a sensor
read or drive command raises (a raising action has no effect of its own).
The exception sites appear in the source order of the fallible actions:
front read, stop, right read, left read, backward, stop, turn, stop in the
evading branch; front read and forward in the cruising branch. -/
def tick_body (e : TickEnv) (speed : ℚ) (io : MotorIO) : Except MotorIO MotorIO :=
  if e.frontFail then .error io
  else if e.frontVal < obstacle_threshold then
    if e.stopFail1 then .error io
    else if e.rightFail then .error (stop_motors io)
    else if e.leftFail then .error (stop_motors io)
    else if e.backFail then .error (stop_motors io)
    else if e.stopFail2 then .error (move_backward speed (stop_motors io))
    else if e.turnFail then .error (stop_motors (move_backward speed (stop_motors io)))
    else if e.stopFail3 then
      .error (if e.rightVal > e.leftVal then
                move_right speed (stop_motors (move_backward speed (stop_motors io)))
              else
                move_left speed (stop_motors (move_backward speed (stop_motors io))))
    else
      .ok (stop_motors (if e.rightVal > e.leftVal then
                move_right speed (stop_motors (move_backward speed (stop_motors io)))
              else
                move_left speed (stop_motors (move_backward speed (stop_motors io)))))
  else
    if e.forwardFail then .error io
    else .ok (move_forward speed io)

/-- One full iteration of the autonomous loop, including the exception
handler (lines 139-140): an exception raised in the body is caught and
answered with `stop_motors()`; the loop then proceeds. -/
def auto_tick (e : TickEnv) (speed : ℚ) (io : MotorIO) : MotorIO :=
  match tick_body e speed io with
  | .ok io' => io'
  | .error io' => stop_motors io'

/-- The autonomous loop run over a finite list of tick environments. -/
def run_auto_ticks (es : List TickEnv) (speed : ℚ) (io : MotorIO) : MotorIO :=
  es.foldl (fun io e => auto_tick e speed io) io

/-- Process-wide mutable state: the motor output sinks, `current_speed` and
the `auto_mode` flag. -/
structure SysState where
  io : MotorIO
  current_speed : ℚ
  auto_mode : Bool
  deriving Repr, DecidableEq

/-- The initial process state (module initialisation, lines 10-44). -/
def initState : SysState :=
  { io := initIO, current_speed := init_current_speed, auto_mode := false }

/-- The public operations that drive the controller's state: the routed
movement / speed / auto tokens of `control` (lines 162-196), the actuator
enable / disable primitives, and one autonomous-loop iteration (which has
an effect only while auto mode runs). `autoStart` performs the worker's
entry action `enable_motors()` (line 120); `autoStop` carries `auto_stop`'s
join semantics, so it includes the worker's exit action `disable_motors()`
(line 141). -/
inductive Op
  | forwardStart
  | backwardStart
  | leftStart
  | rightStart
  | stopToken
  | speedUp
  | speedDown
  | enableOp
  | disableOp
  | autoStart
  | autoStop
  | autoTick (e : TickEnv)
  deriving Repr, DecidableEq

/-- The effect of one public operation on the process state. -/
def stepOp (op : Op) (s : SysState) : SysState :=
  match op with
  | .forwardStart => { s with io := move_forward s.current_speed s.io }
  | .backwardStart => { s with io := move_backward s.current_speed s.io }
  | .leftStart => { s with io := move_left s.current_speed s.io }
  | .rightStart => { s with io := move_right s.current_speed s.io }
  | .stopToken => { s with io := stop_motors s.io }
  | .speedUp => { s with current_speed := increase_speed s.current_speed }
  | .speedDown => { s with current_speed := decrease_speed s.current_speed }
  | .enableOp => { s with io := enable_motors s.io }
  | .disableOp => { s with io := disable_motors s.io }
  | .autoStart =>
      if s.auto_mode then s
      else { s with auto_mode := true, io := enable_motors s.io }
  | .autoStop =>
      if s.auto_mode then { s with auto_mode := false, io := disable_motors s.io }
      else s
  | .autoTick e =>
      if s.auto_mode then { s with io := auto_tick e s.current_speed s.io } else s

/-- Run a sequence of public operations from a state. -/
def runOps (ops : List Op) (s : SysState) : SysState :=
  ops.foldl (fun s op => stepOp op s) s

/-- Invariant: each motor channel has at most one of its forward/reverse
PWM outputs nonzero. -/
def atMostOnePWM (io : MotorIO) : Prop :=
  (io.rpwm_A = 0 ∨ io.lpwm_A = 0) ∧ (io.rpwm_B = 0 ∨ io.lpwm_B = 0)

/-- Embedding of the `auto_stop` branch of `control` (lines 174-179) under
join semantics: when auto mode is running, the flag is cleared and the
caller blocks on `auto_thread.join()`, so the worker's remaining execution
(`finishTick`, the loop iteration already in progress — an arbitrary
transformation of the motor outputs) and the worker's final
`disable_motors()` (line 141) both complete before the call returns; the
response string is produced only after the join. -/
def auto_stop_call (finishTick : MotorIO → MotorIO) (s : SysState) :
    SysState × String :=
  if s.auto_mode then
    ({ io := disable_motors (finishTick s.io),
       current_speed := s.current_speed, auto_mode := false },
     "Auto mode stopped")
  else (s, "Auto mode not active")

end Robot

namespace Robot

/-- C1: for every speed, `set_motor_A`/`set_motor_B` behave as if called with
the speed clamped to [-1,1]: the forward PWM is the clamped value when it is
positive and 0 otherwise, and the reverse PWM is its absolute value when it
is negative and 0 otherwise (both 0 at zero). -/
theorem set_motor_clamped_behavior (speed : ℚ) (io : MotorIO) :
    set_motor_A speed io = set_motor_A (clampSpeed speed) io ∧
    set_motor_B speed io = set_motor_B (clampSpeed speed) io ∧
    (set_motor_A speed io).rpwm_A =
      (if 0 < clampSpeed speed then clampSpeed speed else 0) ∧
    (set_motor_A speed io).lpwm_A =
      (if clampSpeed speed < 0 then -(clampSpeed speed) else 0) ∧
    (set_motor_B speed io).rpwm_B =
      (if 0 < clampSpeed speed then clampSpeed speed else 0) ∧
    (set_motor_B speed io).lpwm_B =
      (if clampSpeed speed < 0 then -(clampSpeed speed) else 0) := by
  have hc : clampSpeed (clampSpeed speed) = clampSpeed speed := by
    unfold clampSpeed
    rcases le_total speed 1 with h1 | h1 <;> rcases le_total speed (-1) with h2 | h2 <;>
      simp [min_def, max_def] <;> split_ifs <;> linarith
  have habs : |clampSpeed speed| = -(clampSpeed speed) ∨
      |clampSpeed speed| = clampSpeed speed := by
    rcases abs_cases (clampSpeed speed) with ⟨h, _⟩ | ⟨h, _⟩
    · right; exact h
    · left; exact h
  unfold set_motor_A set_motor_B
  simp only [hc]
  rcases lt_trichotomy (clampSpeed speed) 0 with h | h | h
  · simp [h, not_lt.mpr h.le, abs_of_neg h]
  · simp [h]
  · simp [h, not_lt.mpr h.le]

/-- C9: `increase_speed` adds 0.1 clamped above at 1.0 and `decrease_speed`
subtracts 0.1 clamped below at 0.0 (each returning the new value), and both
are idempotent at the boundaries: any number of increases from 1.0 leaves the
speed at 1.0, and any number of decreases from 0.0 leaves it at 0.0. -/
theorem speed_adjust_clamped_idempotent (s : ℚ) (n : ℕ) :
    increase_speed s = (if s + 1/10 ≤ 1 then s + 1/10 else 1) ∧
    decrease_speed s = (if s - 1/10 ≤ 0 then 0 else s - 1/10) ∧
    increase_speed^[n] 1 = 1 ∧
    decrease_speed^[n] 0 = 0 := by
  refine ⟨?_, ?_, ?_, ?_⟩
  · unfold increase_speed
    exact min_def _ _
  · unfold decrease_speed
    exact max_def _ _
  · induction n with
    | zero => rfl
    | succ k ih =>
      rw [Function.iterate_succ_apply', ih]
      unfold increase_speed
      norm_num
  · induction n with
    | zero => rfl
    | succ k ih =>
      rw [Function.iterate_succ_apply', ih]
      unfold decrease_speed
      norm_num

theorem run_pulses_tick_count (ps : List Bool) (e : EncState) :
    (run_pulses ps e).tick_count = e.tick_count + (ps.map encoder_dir).sum := by
  induction ps generalizing e with
  | nil => simp [run_pulses]
  | cons x xs ih =>
    have h1 : run_pulses (x :: xs) e = run_pulses xs (on_encoder_tick x e) := rfl
    rw [h1, ih]
    simp [on_encoder_tick]
    ring

theorem run_pulses_direction (ps : List Bool) (e : EncState) (p : Bool)
    (h : ps.getLast? = some p) :
    (run_pulses ps e).direction = encoder_dir p := by
  induction ps generalizing e with
  | nil => simp at h
  | cons x xs ih =>
    cases xs with
    | nil =>
      simp only [List.getLast?_singleton, Option.some.injEq] at h
      subst h
      rfl
    | cons y ys =>
      have h' : (y :: ys).getLast? = some p := by
        rwa [List.getLast?_cons_cons] at h
      exact ih (on_encoder_tick x e) h'

/-- C4: for every finite sequence of encoder pulses, each annotated with the
phase level sampled at that pulse, the final tick count equals the starting
tick count plus the signed sum of per-pulse directions (+1 at logic-low,
-1 otherwise), and the stored direction equals the direction of the final
pulse. -/
theorem encoder_tick_signed_sum (ps : List Bool) (e : EncState) (p : Bool)
    (h : ps.getLast? = some p) :
    (run_pulses ps e).tick_count = e.tick_count + (ps.map encoder_dir).sum ∧
    (run_pulses ps e).direction = encoder_dir p :=
  ⟨run_pulses_tick_count ps e, run_pulses_direction ps e p h⟩

/-- Witness for C4 at the concrete pulse sequence [low, high, low] from the
initial encoder state. -/
theorem encoder_tick_signed_sum_witness :
    ([false, true, false].getLast? = some false) ∧
    (run_pulses [false, true, false] initEnc).tick_count =
      initEnc.tick_count + ([false, true, false].map encoder_dir).sum ∧
    (run_pulses [false, true, false] initEnc).direction = encoder_dir false :=
  ⟨by decide, encoder_tick_signed_sum [false, true, false] initEnc false (by decide)⟩

/-- C5 counterexample: it is not the case that every PWM-zeroing write of
`disable_motors` precedes every enable-de-asserting write: the write at
index 4 zeroes `RPWM_B` but the write at index 2 already de-asserted
`REN_A`. -/
theorem disable_order_counterexample :
    ¬ (∀ i j : Fin disable_writes.length,
        (disable_writes.get i).isZeroPWM = true →
        (disable_writes.get j).isDeassert = true → i < j) := by
  decide

/-- C5 amended: within each motor channel, every write of `disable_motors`
that zeroes one of that channel's PWM outputs precedes every write that
de-asserts one of that channel's enable lines. -/
theorem disable_zeroes_pwm_before_deassert_per_channel :
    ∀ i j : Fin disable_writes.length,
      (disable_writes.get i).isZeroPWM = true →
      (disable_writes.get j).isDeassert = true →
      (disable_writes.get i).pin.onChannelA = (disable_writes.get j).pin.onChannelA →
      i < j := by
  decide

/-- Witness for the amended C5 at indices 0 (zero `RPWM_A`) and 2
(de-assert `REN_A`). -/
theorem disable_zeroes_pwm_before_deassert_witness :
    ((disable_writes.get ⟨0, by decide⟩).isZeroPWM = true) ∧
    ((disable_writes.get ⟨2, by decide⟩).isDeassert = true) ∧
    ((disable_writes.get ⟨0, by decide⟩).pin.onChannelA =
      (disable_writes.get ⟨2, by decide⟩).pin.onChannelA) ∧
    (⟨0, by decide⟩ : Fin disable_writes.length) < ⟨2, by decide⟩ :=
  ⟨by decide, by decide, by decide,
    disable_zeroes_pwm_before_deassert_per_channel ⟨0, by decide⟩ ⟨2, by decide⟩
      (by decide) (by decide) (by decide)⟩

theorem getLast_range_map {α : Type} (f : ℕ → α) (n : ℕ) (h : n ≠ 0) :
    ((List.range n).map f).getLast? = some (f (n - 1)) := by
  cases n with
  | zero => exact absurd rfl h
  | succ m =>
    rw [List.range_succ, List.map_append]
    simp

theorem clampAngle_of_mem (x : ℤ) (h1 : -85 ≤ x) (h2 : x ≤ 85) :
    clampAngle x = x := by
  unfold clampAngle
  rw [min_eq_right h2, max_eq_right h1]

/-- C6 counterexample: from previously commanded angle 0 (well inside
[-85, 85]), `sweep_servo(3)` with the default step 5 iterates over
`range(0, 4, 5) = [0]`, so the last commanded angle is 0, not the clamped
target 3. -/
theorem sweep_misses_target_counterexample :
    ((-85 : ℤ) ≤ 0 ∧ (0 : ℤ) ≤ 85) ∧
    sweep_servo_angles 0 3 5 = [0] ∧
    sweep_final_angle 0 3 5 = 0 ∧
    clampAngle 3 = 3 ∧
    sweep_final_angle 0 3 5 ≠ clampAngle 3 := by
  decide

/-- C6 amended: when the clamped target differs from the previously
commanded angle by a multiple of the default step 5 (as it does for every
sweep the controller issues: 0, +85, -85), the last commanded angle after
`sweep_servo(target)` equals the target clamped to [-85, 85]; otherwise the
sweep stops at the last multiple-of-5 offset short of the clamped target. -/
theorem sweep_reaches_clamped_target (cur target : ℤ)
    (hlo : -85 ≤ cur) (hhi : cur ≤ 85)
    (hdvd : (5 : ℤ) ∣ (clampAngle target - cur)) :
    sweep_final_angle cur target 5 = clampAngle target := by
  obtain ⟨m, hm⟩ := hdvd
  have ht1 : (-85 : ℤ) ≤ clampAngle target := le_max_left _ _
  have ht2 : clampAngle target ≤ 85 := max_le (by norm_num) (min_le_left _ _)
  by_cases hgt : clampAngle target > cur
  · have hlen : pyRangeLen cur (clampAngle target + 1) 5 = m.toNat + 1 := by
      unfold pyRangeLen
      rw [if_pos (by norm_num : (0:ℤ) < 5), (by decide : (5:ℤ).toNat = 5)]
      omega
    unfold sweep_final_angle sweep_servo_angles
    rw [if_pos hgt]
    unfold pyRange
    rw [hlen, List.map_map, getLast_range_map _ _ (by omega : m.toNat + 1 ≠ 0)]
    simp only [Option.getD_some, Function.comp_apply]
    have harg : cur + 5 * ((m.toNat + 1 - 1 : ℕ) : ℤ) = clampAngle target := by omega
    rw [harg]
    exact clampAngle_of_mem _ ht1 ht2
  · have hlen : pyRangeLen cur (clampAngle target - 1) (-5) = (-m).toNat + 1 := by
      unfold pyRangeLen
      rw [if_neg (by norm_num : ¬ (0:ℤ) < -5), if_pos (by norm_num : (-5:ℤ) < 0),
        (by decide : (-(-5:ℤ)).toNat = 5)]
      omega
    unfold sweep_final_angle sweep_servo_angles
    rw [if_neg hgt]
    unfold pyRange
    rw [hlen, List.map_map, getLast_range_map _ _ (by omega : (-m).toNat + 1 ≠ 0)]
    simp only [Option.getD_some, Function.comp_apply]
    have harg : cur + (-5) * (((-m).toNat + 1 - 1 : ℕ) : ℤ) = clampAngle target := by
      omega
    rw [harg]
    exact clampAngle_of_mem _ ht1 ht2

/-- Witness for the amended C6: from angle 0, sweeping to target 90 (clamped
to 85, a multiple of 5 away) ends with the servo commanded to 85. -/
theorem sweep_reaches_clamped_target_witness :
    ((-85 : ℤ) ≤ 0) ∧ ((0 : ℤ) ≤ 85) ∧ ((5 : ℤ) ∣ (clampAngle 90 - 0)) ∧
    sweep_final_angle 0 90 5 = clampAngle 90 :=
  ⟨by norm_num, by norm_num, by decide,
    sweep_reaches_clamped_target 0 90 (by norm_num) (by norm_num) (by decide)⟩

/-- C2 counterexample: on a tick with front reading 10 (below the 20 cm
threshold) and equal side readings 30 and 30, the loop body performs
`move_left` (the code turns right only on a strictly larger right reading),
while the claimed sequence turns right on a tie; so the tick trace differs
from the claimed one. -/
theorem evasion_tie_counterexample :
    (10 : ℚ) < obstacle_threshold ∧
    auto_tick_trace 10 30 30 (3/10) ≠
      [AutoAction.sweep 0, AutoAction.readFront 10] ++
        claimed_evasion_trace 30 30 (3/10) ++ [AutoAction.sleepSec (1/10)] := by
  constructor
  · norm_num [obstacle_threshold]
  · norm_num [auto_tick_trace, claimed_evasion_trace, obstacle_threshold]
    intro hc
    exact AutoAction.noConfusion hc

/-- C2 amended: on every tick whose front reading is below the threshold,
the loop body performs, in order: stop; sweep to +85 and read the right
distance; sweep to -85 and read the left distance; recenter to 0; reverse
at the current speed for 0.5 s then stop; turn left if the left reading is
at least the right reading (ties turn left) and right otherwise, for 0.6 s,
then stop. -/
theorem evasion_sequence_order (front right left speed : ℚ)
    (h : front < obstacle_threshold) :
    auto_tick_trace front right left speed =
      [AutoAction.sweep 0, AutoAction.readFront front] ++
        amended_evasion_trace right left speed ++ [AutoAction.sleepSec (1/10)] := by
  unfold auto_tick_trace amended_evasion_trace
  rw [if_pos h]
  rcases lt_or_le left right with hlr | hlr
  · rw [if_pos (show right > left from hlr), if_neg (not_le.mpr hlr)]
  · rw [if_neg (show ¬ right > left from not_lt.mpr hlr), if_pos hlr]

/-- Witness for the amended C2 on a tick with front reading 10, right
reading 5 and left reading 7. -/
theorem evasion_sequence_order_witness :
    (10 : ℚ) < obstacle_threshold ∧
    auto_tick_trace 10 5 7 (3/10) =
      [AutoAction.sweep 0, AutoAction.readFront 10] ++
        amended_evasion_trace 5 7 (3/10) ++ [AutoAction.sleepSec (1/10)] :=
  ⟨by norm_num [obstacle_threshold],
    evasion_sequence_order 10 5 7 (3/10) (by norm_num [obstacle_threshold])⟩

theorem clampSpeed_zero : clampSpeed 0 = 0 := by
  unfold clampSpeed
  rw [min_eq_left (by norm_num), max_eq_left (by norm_num)]

theorem stop_motors_pwm_zero (io : MotorIO) :
    (stop_motors io).rpwm_A = 0 ∧ (stop_motors io).lpwm_A = 0 ∧
    (stop_motors io).rpwm_B = 0 ∧ (stop_motors io).lpwm_B = 0 := by
  unfold stop_motors set_motor_A set_motor_B
  rw [clampSpeed_zero]
  norm_num

/-- C8: whenever a sensor read or a drive command raises during a tick of
the autonomous loop, the handler catches it and stops all motors for that
tick — the tick's final motor state is `stop_motors` of the partial state,
with every PWM output zero — and the loop simply proceeds to the next tick;
no such error escapes the worker. -/
theorem auto_loop_catches_faults (e : TickEnv) (speed : ℚ) (io fail_io : MotorIO)
    (h : tick_body e speed io = .error fail_io) :
    auto_tick e speed io = stop_motors fail_io ∧
    (auto_tick e speed io).rpwm_A = 0 ∧ (auto_tick e speed io).lpwm_A = 0 ∧
    (auto_tick e speed io).rpwm_B = 0 ∧ (auto_tick e speed io).lpwm_B = 0 ∧
    (∀ es, run_auto_ticks (e :: es) speed io =
      run_auto_ticks es speed (auto_tick e speed io)) := by
  have h1 : auto_tick e speed io = stop_motors fail_io := by
    unfold auto_tick
    rw [h]
  refine ⟨h1, ?_, ?_, ?_, ?_, fun es => rfl⟩ <;> rw [h1]
  · exact (stop_motors_pwm_zero fail_io).1
  · exact (stop_motors_pwm_zero fail_io).2.1
  · exact (stop_motors_pwm_zero fail_io).2.2.1
  · exact (stop_motors_pwm_zero fail_io).2.2.2

/-- Witness for C8: a tick whose front sensor read raises is caught and
leaves all PWM outputs zero, and the loop continues. -/
theorem auto_loop_catches_faults_witness :
    (tick_body { cleanEnv 50 with frontFail := true } (3/10) initIO =
      Except.error initIO) ∧
    (auto_tick { cleanEnv 50 with frontFail := true } (3/10) initIO =
      stop_motors initIO ∧
     (auto_tick { cleanEnv 50 with frontFail := true } (3/10) initIO).rpwm_A = 0 ∧
     (auto_tick { cleanEnv 50 with frontFail := true } (3/10) initIO).lpwm_A = 0 ∧
     (auto_tick { cleanEnv 50 with frontFail := true } (3/10) initIO).rpwm_B = 0 ∧
     (auto_tick { cleanEnv 50 with frontFail := true } (3/10) initIO).lpwm_B = 0 ∧
     (∀ es, run_auto_ticks ({ cleanEnv 50 with frontFail := true } :: es) (3/10) initIO =
        run_auto_ticks es (3/10)
          (auto_tick { cleanEnv 50 with frontFail := true } (3/10) initIO))) :=
  ⟨rfl, auto_loop_catches_faults { cleanEnv 50 with frontFail := true } (3/10)
    initIO initIO rfl⟩

theorem set_motor_pair_atMostOne (u v : ℚ) (io : MotorIO) :
    atMostOnePWM (set_motor_B u (set_motor_A v io)) := by
  unfold atMostOnePWM set_motor_A set_motor_B
  split_ifs <;> simp

set_option maxHeartbeats 1000000 in
theorem auto_tick_atMostOne (e : TickEnv) (speed : ℚ) (io : MotorIO) :
    atMostOnePWM (auto_tick e speed io) := by
  have hstop : ∀ x : MotorIO, atMostOnePWM (stop_motors x) := fun x =>
    set_motor_pair_atMostOne 0 0 x
  have hfwd : atMostOnePWM (move_forward speed io) :=
    set_motor_pair_atMostOne speed speed io
  unfold auto_tick
  cases htb : tick_body e speed io with
  | error io' => exact hstop io'
  | ok io' =>
    unfold tick_body at htb
    split_ifs at htb <;>
      first
      | exact Except.noConfusion htb
      | (injection htb with h'
         subst h'
         first
         | exact hstop _
         | exact hfwd)

theorem stepOp_preserves_atMostOne (op : Op) (s : SysState)
    (h : atMostOnePWM s.io) : atMostOnePWM (stepOp op s).io := by
  cases op <;> simp only [stepOp] <;> try split
  all_goals
    first
    | exact h
    | exact ⟨Or.inl rfl, Or.inl rfl⟩
    | exact set_motor_pair_atMostOne _ _ _
    | exact auto_tick_atMostOne _ _ _

theorem runOps_atMostOne (ops : List Op) (s : SysState)
    (h : atMostOnePWM s.io) : atMostOnePWM (runOps ops s).io := by
  induction ops generalizing s with
  | nil => exact h
  | cons op rest ih => exact ih _ (stepOp_preserves_atMostOne op s h)

/-- C7 counterexample: the operation sequence "disable, then forward_start"
(both public operations) reaches a state in which channel A's enable lines
are de-asserted while its forward PWM output is the nonzero current speed —
so "both PWM outputs are zero whenever a channel's enable lines are
de-asserted" does not hold in every reachable state. -/
theorem channel_invariant_counterexample :
    (runOps [Op.disableOp, Op.forwardStart] initState).io.ren_A = false ∧
    (runOps [Op.disableOp, Op.forwardStart] initState).io.len_A = false ∧
    (runOps [Op.disableOp, Op.forwardStart] initState).io.rpwm_A = 3/10 ∧
    (3/10 : ℚ) ≠ 0 := by
  have hrun : runOps [Op.disableOp, Op.forwardStart] initState =
      stepOp .forwardStart (stepOp .disableOp initState) := rfl
  rw [hrun]
  refine ⟨?_, ?_, ?_, by norm_num⟩ <;>
    norm_num [stepOp, move_forward, set_motor_A, set_motor_B, clampSpeed,
      min_def, max_def, disable_motors, initState, initIO, init_current_speed]

/-- C7 amended: in every state reachable from the initial state by public
operations, each motor channel has at most one of its forward/reverse PWM
outputs nonzero; and immediately after a disable (including the one run by
`auto_stop`'s worker exit), all four PWM outputs are zero and all four
enable lines are de-asserted. The disabled-implies-zero half of the
original invariant holds at the disable itself but is not preserved by
later movement commands. -/
theorem reachable_at_most_one_pwm (ops : List Op) (s : SysState) :
    atMostOnePWM (runOps ops initState).io ∧
    ((stepOp .disableOp s).io.rpwm_A = 0 ∧ (stepOp .disableOp s).io.lpwm_A = 0 ∧
     (stepOp .disableOp s).io.rpwm_B = 0 ∧ (stepOp .disableOp s).io.lpwm_B = 0 ∧
     (stepOp .disableOp s).io.ren_A = false ∧ (stepOp .disableOp s).io.len_A = false ∧
     (stepOp .disableOp s).io.ren_B = false ∧ (stepOp .disableOp s).io.len_B = false) :=
  ⟨runOps_atMostOne ops initState ⟨Or.inl rfl, Or.inl rfl⟩,
   rfl, rfl, rfl, rfl, rfl, rfl, rfl, rfl⟩

/-- C3: when auto mode is running, `auto_stop` clears the flag and joins the
worker, so the worker's in-progress iteration (`finishTick`, arbitrary) and
its final `disable_motors()` complete before the call returns; after the
call returns, all four PWM outputs are zero and all four enable lines are
de-asserted, whatever the finishing iteration wrote. -/
theorem auto_stop_blocks_until_disabled (finishTick : MotorIO → MotorIO)
    (s : SysState) (h : s.auto_mode = true) :
    (auto_stop_call finishTick s).2 = "Auto mode stopped" ∧
    (auto_stop_call finishTick s).1.auto_mode = false ∧
    (auto_stop_call finishTick s).1.io.rpwm_A = 0 ∧
    (auto_stop_call finishTick s).1.io.lpwm_A = 0 ∧
    (auto_stop_call finishTick s).1.io.rpwm_B = 0 ∧
    (auto_stop_call finishTick s).1.io.lpwm_B = 0 ∧
    (auto_stop_call finishTick s).1.io.ren_A = false ∧
    (auto_stop_call finishTick s).1.io.len_A = false ∧
    (auto_stop_call finishTick s).1.io.ren_B = false ∧
    (auto_stop_call finishTick s).1.io.len_B = false := by
  unfold auto_stop_call
  simp [h, disable_motors]

/-- Witness for C3: stopping from a running auto mode whose final iteration
was still driving forward at full speed leaves everything de-energised. -/
theorem auto_stop_blocks_until_disabled_witness :
    ({ initState with auto_mode := true } : SysState).auto_mode = true ∧
    ((auto_stop_call (move_forward 1) { initState with auto_mode := true }).2 =
        "Auto mode stopped" ∧
     (auto_stop_call (move_forward 1) { initState with auto_mode := true }).1.auto_mode = false ∧
     (auto_stop_call (move_forward 1) { initState with auto_mode := true }).1.io.rpwm_A = 0 ∧
     (auto_stop_call (move_forward 1) { initState with auto_mode := true }).1.io.lpwm_A = 0 ∧
     (auto_stop_call (move_forward 1) { initState with auto_mode := true }).1.io.rpwm_B = 0 ∧
     (auto_stop_call (move_forward 1) { initState with auto_mode := true }).1.io.lpwm_B = 0 ∧
     (auto_stop_call (move_forward 1) { initState with auto_mode := true }).1.io.ren_A = false ∧
     (auto_stop_call (move_forward 1) { initState with auto_mode := true }).1.io.len_A = false ∧
     (auto_stop_call (move_forward 1) { initState with auto_mode := true }).1.io.ren_B = false ∧
     (auto_stop_call (move_forward 1) { initState with auto_mode := true }).1.io.len_B = false) :=
  ⟨rfl, auto_stop_blocks_until_disabled (move_forward 1)
    { initState with auto_mode := true } rfl⟩

/-- C10: before any speed command `current_speed` is 0.3, so the first
movement command of each kind drives its moving PWM outputs at 0.3, and the
first autonomous cruising tick (front sample at least the threshold, no
fault) commands forward at 0.3 on both channels. -/
theorem initial_speed_is_three_tenths (front : ℚ)
    (h : obstacle_threshold ≤ front) :
    initState.current_speed = 3/10 ∧
    (stepOp .forwardStart initState).io.rpwm_A = 3/10 ∧
    (stepOp .forwardStart initState).io.rpwm_B = 3/10 ∧
    (stepOp .forwardStart initState).io.lpwm_A = 0 ∧
    (stepOp .forwardStart initState).io.lpwm_B = 0 ∧
    (stepOp .backwardStart initState).io.lpwm_A = 3/10 ∧
    (stepOp .backwardStart initState).io.lpwm_B = 3/10 ∧
    (stepOp .leftStart initState).io.lpwm_A = 3/10 ∧
    (stepOp .leftStart initState).io.rpwm_B = 3/10 ∧
    (stepOp .rightStart initState).io.rpwm_A = 3/10 ∧
    (stepOp .rightStart initState).io.lpwm_B = 3/10 ∧
    (stepOp (.autoTick (cleanEnv front)) (stepOp .autoStart initState)).io.rpwm_A = 3/10 ∧
    (stepOp (.autoTick (cleanEnv front)) (stepOp .autoStart initState)).io.rpwm_B = 3/10 := by
  have hstart : stepOp .autoStart initState =
      { io := enable_motors initIO, current_speed := 3/10, auto_mode := true } := rfl
  have htick : auto_tick (cleanEnv front) (3/10) (enable_motors initIO) =
      move_forward (3/10) (enable_motors initIO) := by
    unfold auto_tick
    simp [tick_body, cleanEnv, not_lt.mpr h]
  have hstep2 : stepOp (.autoTick (cleanEnv front)) (stepOp .autoStart initState) =
      { io := auto_tick (cleanEnv front) (3/10) (enable_motors initIO),
        current_speed := 3/10, auto_mode := true } := by
    rw [hstart]
    rfl
  refine ⟨rfl, ?_, ?_, ?_, ?_, ?_, ?_, ?_, ?_, ?_, ?_, ?_, ?_⟩ <;>
    first
    | (norm_num [stepOp, initState, init_current_speed, initIO, move_forward,
        move_backward, move_left, move_right, set_motor_A, set_motor_B,
        clampSpeed, min_def, max_def]
       done)
    | (rw [hstep2, htick]
       norm_num [move_forward, set_motor_A, set_motor_B, clampSpeed,
         min_def, max_def, enable_motors, initIO])

/-- Witness for C10 at a cruising front sample of 50 cm. -/
theorem initial_speed_is_three_tenths_witness :
    obstacle_threshold ≤ (50 : ℚ) ∧
    (initState.current_speed = 3/10 ∧
     (stepOp .forwardStart initState).io.rpwm_A = 3/10 ∧
     (stepOp .forwardStart initState).io.rpwm_B = 3/10 ∧
     (stepOp .forwardStart initState).io.lpwm_A = 0 ∧
     (stepOp .forwardStart initState).io.lpwm_B = 0 ∧
     (stepOp .backwardStart initState).io.lpwm_A = 3/10 ∧
     (stepOp .backwardStart initState).io.lpwm_B = 3/10 ∧
     (stepOp .leftStart initState).io.lpwm_A = 3/10 ∧
     (stepOp .leftStart initState).io.rpwm_B = 3/10 ∧
     (stepOp .rightStart initState).io.rpwm_A = 3/10 ∧
     (stepOp .rightStart initState).io.lpwm_B = 3/10 ∧
     (stepOp (.autoTick (cleanEnv 50)) (stepOp .autoStart initState)).io.rpwm_A = 3/10 ∧
     (stepOp (.autoTick (cleanEnv 50)) (stepOp .autoStart initState)).io.rpwm_B = 3/10) :=
  ⟨by norm_num [obstacle_threshold],
    initial_speed_is_three_tenths 50 (by norm_num [obstacle_threshold])⟩

end Robot
